import Mathlib

/-!
# CryptoSniper — shallow embedding of the signal/indicator core

A shallow embedding of the pure core of `CryptoSniperWeb.py`: the indicator
engine (`add_indicators`), the market-state classifier (`market_state`), the
grid suggestion calculator (`calculate_grid`), the sniper signal evaluator
(`sniper_signal`), the risk radar (`risk_radar`), the source fallback router
(`get_klines`), and the alert-deduplication ledger (`st.session_state.alert_log`).

Floats are modelled as `ℚ`; a pandas/numpy NaN ("insufficient data") is
modelled as `none` in `Option ℚ`.  Python float comparisons against NaN are
always `False`, which the helpers `nGt`/`nLt` reproduce.  Division in `ℚ` is
total with `x / 0 = 0`; the places where the Python code could divide by zero
(`pct_change` with a zero previous close, volume mean zero in `risk_radar`)
are noted at the definitions.
-/

namespace CryptoSniper

/-- Constant `MIN_BARS = 60` (CryptoSniperWeb.py line 16). -/
def MIN_BARS : ℕ := 60

/-- Constant `LIMIT = 120` (CryptoSniperWeb.py line 15). -/
def LIMIT : ℕ := 120

/-- One OHLCV row of the kline dataframe: columns `open`, `high`, `low`,
`close`, `volume` cast to float (lines 57-65).  The `open` column is named
`opn` (`open` is a Lean keyword); `open_time` is omitted: none of the
embedded functions reads either. -/
structure Candle where
  opn : ℚ
  high : ℚ
  low : ℚ
  close : ℚ
  volume : ℚ
deriving DecidableEq

/-- Default candle used for out-of-range `List.getD` accesses; every embedded
function guards its indices, so the default is never observable. -/
def cDflt : Candle := ⟨0, 0, 0, 0, 0⟩

/-- The `close` column of the dataframe. -/
def closes (w : List Candle) : List ℚ := w.map Candle.close

/-- The `volume` column of the dataframe. -/
def volumes (w : List Candle) : List ℚ := w.map Candle.volume

/-- Pandas `Series.rolling(n).mean()` on a NaN-free series: at row `i` the
value is the mean of the trailing `n` values when `n` values exist (default
`min_periods = n`), and NaN (`none`) otherwise. -/
def rollingMean (xs : List ℚ) (n i : ℕ) : Option ℚ :=
  if n ≤ i + 1 ∧ i < xs.length then some (((xs.drop (i + 1 - n)).take n).sum / n)
  else none

/-- Pandas `Series.rolling(n).mean()` on a series that may contain NaN
(`none`) entries: with the default `min_periods = n`, a window that is short
or contains any NaN yields NaN. -/
def rollingMeanO (xs : List (Option ℚ)) (n i : ℕ) : Option ℚ :=
  if n ≤ i + 1 ∧ i < xs.length then
    match ((xs.drop (i + 1 - n)).take n).mapM id with
    | some ys => some (ys.sum / n)
    | none => none
  else none

/-- Column `df["ma20"] = df["close"].rolling(20).mean()` (line 116). -/
def ma20 (w : List Candle) (i : ℕ) : Option ℚ := rollingMean (closes w) 20 i

/-- Column `df["ma60"] = df["close"].rolling(60).mean()` (line 117). -/
def ma60 (w : List Candle) (i : ℕ) : Option ℚ := rollingMean (closes w) 60 i

/-- Column `df["ma120"] = df["close"].rolling(120).mean()` (line 118). -/
def ma120 (w : List Candle) (i : ℕ) : Option ℚ := rollingMean (closes w) 120 i

/-- Column `df["vol_ma20"] = df["volume"].rolling(20).mean()` (line 119). -/
def vol_ma20 (w : List Candle) (i : ℕ) : Option ℚ := rollingMean (volumes w) 20 i

/-- Column `df["pct"] = df["close"].pct_change() * 100` (line 120): row 0 has no
previous close and is NaN; later rows are `(close/prev_close - 1) * 100`.
(The data model has `close > 0`, so the division never hits zero there;
`ℚ` would give `x / 0 = 0` where floats give ±inf/NaN.) -/
def pct (w : List Candle) (i : ℕ) : Option ℚ :=
  if 0 < i ∧ i < w.length then
    some (((w.getD i cDflt).close / (w.getD (i - 1) cDflt).close - 1) * 100)
  else none

/-- Column `df["tr"] = np.maximum(high - low, np.maximum(abs(high - close.shift(1)),
abs(low - close.shift(1))))` (lines 123-129).  At row 0, `close.shift(1)` is
NaN, so both absolute differences are NaN, and `np.maximum` PROPAGATES NaN
(it is not `np.fmax`), so the whole row-0 true range is NaN (`none`). -/
def tr (w : List Candle) (i : ℕ) : Option ℚ :=
  if 0 < i ∧ i < w.length then
    some (max ((w.getD i cDflt).high - (w.getD i cDflt).low)
      (max |(w.getD i cDflt).high - (w.getD (i - 1) cDflt).close|
           |(w.getD i cDflt).low - (w.getD (i - 1) cDflt).close|))
  else none

/-- The `tr` column as a series, row by row. -/
def trSeries (w : List Candle) : List (Option ℚ) := (List.range w.length).map (tr w)

/-- Column `df["atr"] = df["tr"].rolling(14).mean()` (line 130); windows containing
the NaN at row 0 yield NaN. -/
def atr (w : List Candle) (i : ℕ) : Option ℚ := rollingMeanO (trSeries w) 14 i

/-- Column `df["atr_pct"] = (df["atr"] / df["close"]) * 100` (line 131); NaN `atr`
propagates. -/
def atr_pct (w : List Candle) (i : ℕ) : Option ℚ :=
  (atr w i).map (fun a => a / (w.getD i cDflt).close * 100)

/-- Python float `>` with NaN modelled as `none`: any comparison involving
NaN is `False`. -/
def nGt (a b : Option ℚ) : Bool :=
  match a, b with
  | some x, some y => decide (y < x)
  | _, _ => false

/-- Python float `<` with NaN modelled as `none`: any comparison involving
NaN is `False`. -/
def nLt (a b : Option ℚ) : Bool :=
  match a, b with
  | some x, some y => decide (x < y)
  | _, _ => false

/-- Function `market_state(df)` (lines 139-152): `("待命", None)` when the window is
absent or shorter than `MIN_BARS`; otherwise the chained Python comparisons
`close > ma20 > ma60 > ma120` and `close < ma20 < ma60 < ma120` on the latest
row (each individual comparison is `False` whenever one side is NaN). -/
def market_state (df : Option (List Candle)) : String × Option String :=
  match df with
  | none => ("待命", none)
  | some w =>
    if w.length < MIN_BARS then ("待命", none)
    else
      let i := w.length - 1
      let c : Option ℚ := some (w.getD i cDflt).close
      if nGt c (ma20 w i) && nGt (ma20 w i) (ma60 w i) && nGt (ma60 w i) (ma120 w i) then
        ("📈 上升趨勢", some "UPTREND")
      else if nLt c (ma20 w i) && nLt (ma20 w i) (ma60 w i) && nLt (ma60 w i) (ma120 w i) then
        ("📉 下降趨勢", some "DOWNTREND")
      else
        ("📊 盤整區", some "RANGE")

/-- One entry of the `GRID_PARAMS` table (lines 22-26). -/
structure GridParams where
  lower_pct : ℚ
  upper_pct : ℚ
  grid_count : ℕ
deriving DecidableEq

/-- The static `GRID_PARAMS` dict (lines 22-26); lookup of an absent symbol
is `none`. -/
def GRID_PARAMS (symbol : String) : Option GridParams :=
  if symbol = "BTCUSDT" then some ⟨1.5, 1.5, 20⟩
  else if symbol = "ETHUSDT" then some ⟨2.0, 2.0, 20⟩
  else if symbol = "SOLUSDT" then some ⟨3.0, 3.0, 15⟩
  else none

/-- Python builtin `min(a, 2.0)` where `a` may be NaN: `min` keeps the first
argument unless a later one compares strictly smaller, and every comparison
with NaN is `False`, so `min(NaN, 2.0) = NaN` while `min(x, NaN) = x`. -/
def pyMin (a b : Option ℚ) : Option ℚ :=
  match a, b with
  | none, _ => none
  | some x, none => some x
  | some x, some y => some (min x y)

/-- Widening factor `atr_factor = min(atr_pct / 2.0, 2.0)` (line 176). -/
def atr_factor (a : Option ℚ) : Option ℚ := pyMin (a.map (fun x => x / 2)) (some 2)

/-- The dict returned by `calculate_grid` (lines 185-192).  Fields that can
be NaN floats (when `atr_pct` is NaN) are `Option ℚ`. -/
structure GridInfo where
  current : ℚ
  lower : Option ℚ
  upper : Option ℚ
  grid_count : ℕ
  grid_width : Option ℚ
  atr_pct : Option ℚ
deriving DecidableEq

/-- Function `calculate_grid(symbol, df)` (lines 158-192): `None` when the window is
absent or shorter than 20 rows or the symbol has no grid parameters;
otherwise widen `lower_pct`/`upper_pct` by `atr_factor` and derive the
bounds and grid width from the latest close.  When `atr_pct` of the latest
row is NaN the factor and every value computed from it are NaN (`none`). -/
def calculate_grid (symbol : String) (df : Option (List Candle)) : Option GridInfo :=
  match df with
  | none => none
  | some w =>
    if w.length < 20 then none
    else
      let i := w.length - 1
      let current := (w.getD i cDflt).close
      let a := atr_pct w i
      match GRID_PARAMS symbol with
      | none => none
      | some p =>
        match atr_factor a with
        | none => some ⟨current, none, none, p.grid_count, none, a⟩
        | some f =>
          let lower_pct := p.lower_pct * f
          let upper_pct := p.upper_pct * f
          let lower_price := current * (1 - lower_pct / 100)
          let upper_price := current * (1 + upper_pct / 100)
          let grid_width := (upper_price - lower_price) / (p.grid_count : ℚ)
          some ⟨current, some lower_price, some upper_price, p.grid_count, some grid_width, a⟩

/-- Function `sniper_signal(df)` (lines 198-227): all-false when the window is absent,
shorter than `MIN_BARS`, or `ma20`/`ma60` of the latest row is NaN; otherwise
the three threshold rules on the latest row, with NaN comparisons `False`. -/
def sniper_signal (df : Option (List Candle)) : Bool × Bool × Bool :=
  match df with
  | none => (false, false, false)
  | some w =>
    if w.length < MIN_BARS then (false, false, false)
    else
      let i := w.length - 1
      let latest := w.getD i cDflt
      match ma20 w i, ma60 w i with
      | some m20, some m60 =>
        let vma := vol_ma20 w i
        let p := pct w i
        let attack :=
          nGt (some latest.close) (some m20) && nGt (some m20) (some m60) &&
          nGt (some latest.volume) (vma.map (fun v => v * 2)) &&
          nGt p (some 0.8)
        let ambush :=
          nGt (some latest.volume) (vma.map (fun v => v * 3)) &&
          nLt (p.map (fun x => |x|)) (some 0.3)
        let dump :=
          nLt (some latest.close) (some m20) &&
          nGt (some latest.volume) (vma.map (fun v => v * 2)) &&
          nLt p (some (-1))
        (attack, ambush, dump)
      | _, _ => (false, false, false)

/-- One alert built by `risk_radar` (lines 243-252), carrying its magnitude
(the message-format strings are presentation). -/
inductive RiskAlert where
  | pump (m : ℚ)
  | dump (m : ℚ)
  | volSpike (r : ℚ)
deriving DecidableEq

/-- The alert list of `risk_radar` (lines 243-252) from the trailing-5
statistics: `max_pct > 2.0`, `min_pct < -2.0`, `vol_spike > 5`, in order.
A NaN (`none`) `max_pct`/`min_pct` (all five `pct` values NaN) fails its
comparison. -/
def mkAlerts (maxPct minPct : Option ℚ) (volSpike : ℚ) : List RiskAlert :=
  (match maxPct with
   | some m => if 2 < m then [RiskAlert.pump m] else []
   | none => []) ++
  (match minPct with
   | some m => if m < -2 then [RiskAlert.dump |m|] else []
   | none => []) ++
  (if 5 < volSpike then [RiskAlert.volSpike volSpike] else [])

/-- Function `risk_radar(df, symbol)` (lines 233-254): `None` when the window is
absent or shorter than 5; otherwise over `df.tail(5)` (rows `n-5 .. n-1`),
`max_pct`/`min_pct` are the pandas max/min of the `pct` column (skipping
NaN), and `vol_spike = volume.iloc[-1] / volume.mean()`; returns the alert
list, or `None` when it is empty.  (`ℚ` gives `x / 0 = 0` where floats give
NaN/inf when the five volumes sum to zero, which can only differ from the
float run when some volume is negative.) -/
def risk_radar (df : Option (List Candle)) : Option (List RiskAlert) :=
  match df with
  | none => none
  | some w =>
    if w.length < 5 then none
    else
      let n := w.length
      let pcts := ([pct w (n-5), pct w (n-4), pct w (n-3), pct w (n-2), pct w (n-1)]).filterMap id
      let maxPct := pcts.max?
      let minPct := pcts.min?
      let v0 := (w.getD (n-5) cDflt).volume
      let v1 := (w.getD (n-4) cDflt).volume
      let v2 := (w.getD (n-3) cDflt).volume
      let v3 := (w.getD (n-2) cDflt).volume
      let v4 := (w.getD (n-1) cDflt).volume
      let volSpike := v4 / ((v0 + v1 + v2 + v3 + v4) / 5)
      let alerts := mkAlerts maxPct minPct volSpike
      if alerts = [] then none else some alerts

/-- Whether a `RiskAlert` is the volume-spike flag. -/
def isVolSpike : RiskAlert → Bool
  | RiskAlert.volSpike _ => true
  | _ => false

/-- Usability test `df is not None and len(df) > 0` (lines 104 and 108). -/
def usable (df : Option (List Candle)) : Bool :=
  match df with
  | some w => decide (0 < w.length)
  | none => false

/-- Router `get_klines(symbol)` (lines 101-111), with the two network adapters'
outcomes as inputs (`none` models an adapter returning `None`): return the
Binance window tagged `"Binance"` when usable and non-empty, else the OKX
window tagged `"OKX"` when usable and non-empty, else `(None, None)`. -/
def get_klines (binance okx : Option (List Candle)) :
    Option (List Candle) × Option String :=
  if usable binance then (binance, some "Binance")
  else if usable okx then (okx, some "OKX")
  else (none, none)

/-- The query side of the alert ledger: `key not in st.session_state.alert_log`
(lines 353, 381, 398).  The ledger (a dict used as a set of keys) is returned
unchanged: a pure membership test. -/
def should_notify (log : List String) (k : String) : Bool × List String :=
  (!(log.contains k), log)

/-- The marking side of the alert ledger:
`st.session_state.alert_log[key] = True` (lines 366, 387, 400). -/
def mark_notified (log : List String) (k : String) : List String := k :: log

/-- Length of an optional candle window; the absent window counts as length 0. -/
def winLen : Option (List Candle) → ℕ
  | none => 0
  | some w => w.length

/-- Fixture: a single-candle window with `high = 2`, `low = 1`. -/
def exCandle : Candle := ⟨1, 2, 1, 1, 1⟩

/-- Fixture: a two-candle window. -/
def exW2 : List Candle := [⟨1, 2, 1, 1, 1⟩, ⟨1, 3, 2, 2, 1⟩]

/-- Fixture: a one-candle window. -/
def exW1 : List Candle := [⟨1, 2, 1, 1, 1⟩]

/-- Fixture: a 60-candle constant window (enough bars for signals, too few
for `ma120`). -/
def stdW : List Candle := List.replicate 60 ⟨1, 1, 1, 1, 1⟩

/-- Fixture: a 20-candle constant window (enough bars for `calculate_grid`
and for a defined `atr_pct` at the latest row). -/
def gridW : List Candle := List.replicate 20 ⟨1, 1, 1, 1, 1⟩

/-- Fixture: a 5-candle constant window. -/
def riskW : List Candle := List.replicate 5 ⟨1, 1, 1, 1, 1⟩

set_option maxRecDepth 100000

/-- The sum of the `n`-element slice of `xs` starting at `k`, written as an
indexed sum. -/
lemma take_drop_sum (xs : List ℚ) (k n : ℕ) (h : k + n ≤ xs.length) :
    ((xs.drop k).take n).sum = ∑ j ∈ Finset.range n, xs.getD (k + j) 0 := by
  induction n with
  | zero => simp
  | succ m ih =>
    rw [Finset.sum_range_succ, ← ih (by omega), List.take_succ, List.sum_append,
      List.getElem?_drop, List.getElem?_eq_getElem (by omega : k + m < xs.length)]
    simp [List.getD_eq_getElem?_getD, List.getElem?_eq_getElem (by omega : k + m < xs.length)]

/-- Closed form of `rollingMean`: an indexed trailing-window mean when enough
history exists, `none` otherwise. -/
lemma rollingMean_eq (xs : List ℚ) (n i : ℕ) :
    rollingMean xs n i =
      if n ≤ i + 1 ∧ i < xs.length then
        some ((∑ j ∈ Finset.range n, xs.getD (i + 1 - n + j) 0) / n)
      else none := by
  unfold rollingMean
  split
  case isTrue h => rw [take_drop_sum xs (i + 1 - n) n (by omega)]
  case isFalse h => rfl

/-- C8: each moving average (`ma20`, `ma60`, `ma120` over close; `vol_ma20`
over volume) at every position with at least `N` prior points equals the
exact arithmetic mean of the trailing `N` values, and at every position with
fewer than `N` points it is undefined (`none`) — never zero and never a
partial-window average. -/
theorem rolling_means_exact (w : List Candle) (i : ℕ) :
    (ma20 w i = if 20 ≤ i + 1 ∧ i < w.length then
      some ((∑ j ∈ Finset.range 20, (closes w).getD (i + 1 - 20 + j) 0) / 20) else none) ∧
    (ma60 w i = if 60 ≤ i + 1 ∧ i < w.length then
      some ((∑ j ∈ Finset.range 60, (closes w).getD (i + 1 - 60 + j) 0) / 60) else none) ∧
    (ma120 w i = if 120 ≤ i + 1 ∧ i < w.length then
      some ((∑ j ∈ Finset.range 120, (closes w).getD (i + 1 - 120 + j) 0) / 120) else none) ∧
    (vol_ma20 w i = if 20 ≤ i + 1 ∧ i < w.length then
      some ((∑ j ∈ Finset.range 20, (volumes w).getD (i + 1 - 20 + j) 0) / 20) else none) := by
  have hc : (closes w).length = w.length := by simp [closes]
  have hv : (volumes w).length = w.length := by simp [volumes]
  refine ⟨?_, ?_, ?_, ?_⟩ <;>
    simp only [ma20, ma60, ma120, vol_ma20, rollingMean_eq, hc, hv, Nat.cast_ofNat]

/-- C2 (counterexample): on a one-candle window with `high = 2`, `low = 1`,
the code's true range at the first candle is NaN (`none`), not
`high - low`: `np.maximum` propagates the NaN of `close.shift(1)`. -/
theorem tr_first_candle_counterexample :
    tr [exCandle] 0 = none ∧
    decide (tr [exCandle] 0 = some (exCandle.high - exCandle.low)) = false := by
  with_unfolding_all decide

/-- C2 (amended): the true-range value at the first candle is undefined
(NaN, because `np.maximum` propagates the NaN previous close), and at every
later candle equals `max(high - low, |high - prev_close|, |low - prev_close|)`. -/
theorem tr_values (w : List Candle) (i : ℕ) (hi : i < w.length) :
    tr w 0 = none ∧
    (0 < i → tr w i = some (max ((w.get ⟨i, hi⟩).high - (w.get ⟨i, hi⟩).low)
      (max |(w.get ⟨i, hi⟩).high - (w.get ⟨i - 1, Nat.lt_of_le_of_lt (Nat.sub_le i 1) hi⟩).close|
           |(w.get ⟨i, hi⟩).low - (w.get ⟨i - 1, Nat.lt_of_le_of_lt (Nat.sub_le i 1) hi⟩).close|))) := by
  constructor
  · simp [tr]
  · intro h0
    unfold tr
    rw [if_pos ⟨h0, hi⟩]
    simp only [List.getD_eq_getElem?_getD, List.getElem?_eq_getElem hi,
      List.getElem?_eq_getElem (Nat.lt_of_le_of_lt (Nat.sub_le i 1) hi), Option.getD_some,
      List.get_eq_getElem]

/-- Witness for C2's amended theorem at the two-candle fixture. -/
theorem tr_values_witness :
    1 < exW2.length ∧ 0 < 1 ∧ tr exW2 1 = some 2 :=
  ⟨by decide, by decide,
   ((tr_values exW2 1 (by decide)).2 (by decide)).trans (by with_unfolding_all decide)⟩

/-- C3 (code evaluated at the failing input): a 60-bar window has
`60 ≤ length < 120`, so `ma120` of the latest row is undefined, yet
`market_state` classifies it as RANGE (`盤整區`), not STANDBY (`待命`):
the NaN `ma120` makes both chained comparisons false and the classifier
falls through to the RANGE branch instead of treating the missing moving
average as "cannot decide". -/
theorem market_state_missing_ma120 :
    MIN_BARS ≤ stdW.length ∧ stdW.length < LIMIT ∧
    ma120 stdW (stdW.length - 1) = none ∧
    market_state (some stdW) = ("📊 盤整區", some "RANGE") := by
  with_unfolding_all decide

/-- C4: for every candle window shorter than `MIN_BARS` (the absent window
included), the signal evaluator returns the all-false triple and the
market-state classifier returns STANDBY (`待命`). -/
theorem short_window_standby (df : Option (List Candle))
    (h : winLen df < MIN_BARS) :
    sniper_signal df = (false, false, false) ∧ market_state df = ("待命", none) := by
  cases df with
  | none => exact ⟨rfl, rfl⟩
  | some w =>
    have hw : w.length < MIN_BARS := h
    exact ⟨by simp [sniper_signal, if_pos hw], by simp [market_state, if_pos hw]⟩

/-- Witness for C4 at the absent window. -/
theorem short_window_standby_witness :
    winLen none < MIN_BARS ∧
    sniper_signal none = (false, false, false) ∧
    market_state none = ("待命", none) :=
  ⟨by decide, (short_window_standby none (by decide)).1,
   (short_window_standby none (by decide)).2⟩

/-- C1: for every window of length at least `MIN_BARS = 60` whose latest row
has `ma20` and `ma60` defined (naming also the latest `vol_ma20` and `pct`
values), the evaluator returns attack exactly when
`close > ma20 > ma60 ∧ volume > 2·vol_ma20 ∧ pct > 0.8`, ambush exactly when
`volume > 3·vol_ma20 ∧ |pct| < 0.3`, and dump exactly when
`close < ma20 ∧ volume > 2·vol_ma20 ∧ pct < -1`, all on the latest row. -/
theorem sniper_signal_thresholds (w : List Candle) (m20 m60 vm p : ℚ)
    (hlen : MIN_BARS ≤ w.length)
    (h20 : ma20 w (w.length - 1) = some m20)
    (h60 : ma60 w (w.length - 1) = some m60)
    (hvm : vol_ma20 w (w.length - 1) = some vm)
    (hp : pct w (w.length - 1) = some p) :
    sniper_signal (some w) =
      (decide ((w.getD (w.length - 1) cDflt).close > m20 ∧ m20 > m60 ∧
         (w.getD (w.length - 1) cDflt).volume > vm * 2 ∧ p > 0.8),
       decide ((w.getD (w.length - 1) cDflt).volume > vm * 3 ∧ |p| < 0.3),
       decide ((w.getD (w.length - 1) cDflt).close < m20 ∧
         (w.getD (w.length - 1) cDflt).volume > vm * 2 ∧ p < -1)) := by
  simp only [sniper_signal, Nat.not_lt.mpr hlen, if_neg, ite_false, h20, h60, hvm, hp,
    Option.map_some', nGt, nLt]
  simp [Bool.decide_and, gt_iff_lt, Bool.and_assoc]

/-- Witness for C1 at the 60-candle constant fixture. -/
theorem sniper_signal_thresholds_witness :
    MIN_BARS ≤ stdW.length ∧
    ma20 stdW (stdW.length - 1) = some 1 ∧
    ma60 stdW (stdW.length - 1) = some 1 ∧
    vol_ma20 stdW (stdW.length - 1) = some 1 ∧
    pct stdW (stdW.length - 1) = some 0 ∧
    sniper_signal (some stdW) = (false, false, false) :=
  ⟨by decide, by with_unfolding_all decide, by with_unfolding_all decide,
   by with_unfolding_all decide, by with_unfolding_all decide,
   (sniper_signal_thresholds stdW 1 1 1 0 (by decide) (by with_unfolding_all decide)
      (by with_unfolding_all decide) (by with_unfolding_all decide)
      (by with_unfolding_all decide)).trans (by with_unfolding_all decide)⟩

/-- C7: for every candle window (present or absent), the attack signal and
the dump signal are never simultaneously true: attack requires
`close > ma20` while dump requires `close < ma20`. -/
theorem attack_dump_exclusive (df : Option (List Candle)) :
    ((sniper_signal df).1 && (sniper_signal df).2.2) = false := by
  cases df with
  | none => rfl
  | some w =>
    simp only [sniper_signal]
    by_cases hlen : w.length < MIN_BARS
    · simp [hlen]
    · rw [if_neg hlen]
      cases h20 : ma20 w (w.length - 1) with
      | none => simp
      | some m20 =>
        cases h60 : ma60 w (w.length - 1) with
        | none => simp
        | some m60 =>
          simp only [nGt, nLt]
          simp
          intro h1 _ _ _ h5 _
          exact absurd (h1.trans h5) (lt_irrefl _)

/-- C5: for every symbol with grid parameters and every window of at least
20 bars whose latest `atr_pct` is defined, the widening factor is
`min(atr_pct / 2, 2)` — equal to 0, 2, 2 at `atr_pct` 0, 4, 100, and never
above 2 — and the suggestion multiplies the static `lower_pct`/`upper_pct`
by it and derives `lower = price·(1 - lower_pct/100)`,
`upper = price·(1 + upper_pct/100)`, `grid_width = (upper - lower)/grid_count`. -/
theorem calculate_grid_spec (symbol : String) (w : List Candle) (p : GridParams) (a : ℚ)
    (hp : GRID_PARAMS symbol = some p)
    (hlen : 20 ≤ w.length)
    (ha : atr_pct w (w.length - 1) = some a) :
    atr_factor (some 0) = some 0 ∧
    atr_factor (some 4) = some 2 ∧
    atr_factor (some 100) = some 2 ∧
    (∀ x f : ℚ, atr_factor (some x) = some f → f ≤ 2) ∧
    calculate_grid symbol (some w) =
      some ⟨(w.getD (w.length - 1) cDflt).close,
        some ((w.getD (w.length - 1) cDflt).close * (1 - p.lower_pct * min (a / 2) 2 / 100)),
        some ((w.getD (w.length - 1) cDflt).close * (1 + p.upper_pct * min (a / 2) 2 / 100)),
        p.grid_count,
        some (((w.getD (w.length - 1) cDflt).close * (1 + p.upper_pct * min (a / 2) 2 / 100) -
          (w.getD (w.length - 1) cDflt).close * (1 - p.lower_pct * min (a / 2) 2 / 100)) /
          (p.grid_count : ℚ)),
        some a⟩ := by
  refine ⟨?_, ?_, ?_, ?_, ?_⟩
  · norm_num [atr_factor, pyMin]
  · norm_num [atr_factor, pyMin]
  · norm_num [atr_factor, pyMin]
  · intro x f h
    simp [atr_factor, pyMin] at h
    rw [← h]
    exact min_le_right _ _
  · have hf : atr_factor (some a) = some (min (a / 2) 2) := by simp [atr_factor, pyMin]
    simp only [calculate_grid, Nat.not_lt.mpr hlen, ite_false, if_neg, hp, ha, hf]

/-- Witness for C5 at the 20-candle constant fixture (BTCUSDT). -/
theorem calculate_grid_spec_witness :
    GRID_PARAMS "BTCUSDT" = some ⟨1.5, 1.5, 20⟩ ∧
    20 ≤ gridW.length ∧
    atr_pct gridW (gridW.length - 1) = some 0 ∧
    calculate_grid "BTCUSDT" (some gridW) = some ⟨1, some 1, some 1, 20, some 0, some 0⟩ :=
  ⟨by with_unfolding_all decide, by decide, by with_unfolding_all decide,
   ((calculate_grid_spec "BTCUSDT" gridW ⟨1.5, 1.5, 20⟩ 0 (by with_unfolding_all decide)
      (by decide) (by with_unfolding_all decide)).2.2.2.2).trans
     (by with_unfolding_all decide)⟩

/-- C6: the router returns the Binance window tagged `"Binance"` whenever it
is usable (present and non-empty); tries OKX exactly when Binance is not
usable, returning it tagged `"OKX"` when usable; and returns the sentinel
`(none, none)` precisely when both adapters fail. -/
theorem get_klines_fallback (b o : Option (List Candle)) :
    (usable b = true → get_klines b o = (b, some "Binance")) ∧
    (usable b = false → usable o = true → get_klines b o = (o, some "OKX")) ∧
    (get_klines b o = (none, none) ↔ usable b = false ∧ usable o = false) := by
  unfold get_klines
  cases hb : usable b <;> cases ho : usable o <;> simp [hb, ho]

/-- Witness for C6 with a usable Binance window. -/
theorem get_klines_fallback_witness :
    usable (some exW1) = true ∧
    get_klines (some exW1) none = (some exW1, some "Binance") :=
  ⟨by decide, (get_klines_fallback (some exW1) none).1 (by decide)⟩

/-- C9: querying the ledger has no side effect (the ledger is returned
unchanged, so two consecutive queries agree); an absent key reports
"notify"; after marking a key, every later query for that key reports "do
not notify", and this persists under further marks of other keys; a
different key (e.g. a changed time bucket) not yet in the ledger still
reports "notify". -/
theorem alert_ledger_behavior (log : List String) (k k' : String) :
    (should_notify log k).2 = log ∧
    should_notify ((should_notify log k).2) k = should_notify log k ∧
    (log.contains k = false → (should_notify log k).1 = true) ∧
    (should_notify (mark_notified log k) k).1 = false ∧
    (should_notify (mark_notified (mark_notified log k) k') k).1 = false ∧
    (k' ≠ k → log.contains k' = false → (should_notify (mark_notified log k) k').1 = true) := by
  refine ⟨rfl, rfl, ?_, ?_, ?_, ?_⟩
  · intro h
    simp only [should_notify, Bool.not_eq_true']
    exact h
  · simp [should_notify, mark_notified, List.contains_cons]
  · simp [should_notify, mark_notified, List.contains_cons]
  · intro h1 h2
    simp only [should_notify, mark_notified, List.contains_cons, Bool.not_eq_true',
      Bool.or_eq_false_iff]
    exact ⟨by simpa using h1, h2⟩

/-- Witness for C9 on the empty ledger with two distinct keys. -/
theorem alert_ledger_behavior_witness :
    ("b" : String) ≠ "a" ∧
    ([] : List String).contains "b" = false ∧
    (should_notify (mark_notified [] "a") "b").1 = true :=
  ⟨by decide, by decide,
   (alert_ledger_behavior [] "a" "b").2.2.2.2.2 (by decide) (by decide)⟩

/-- The trailing-5 volume ratio is at most 5 when all five volumes are
non-negative, because the denominator mean includes the numerator bar. -/
lemma vol_ratio_le_five (v0 v1 v2 v3 v4 : ℚ) (h0 : 0 ≤ v0) (h1 : 0 ≤ v1) (h2 : 0 ≤ v2)
    (h3 : 0 ≤ v3) (h4 : 0 ≤ v4) : v4 / ((v0 + v1 + v2 + v3 + v4) / 5) ≤ 5 := by
  rcases eq_or_lt_of_le (by positivity : (0:ℚ) ≤ v0 + v1 + v2 + v3 + v4) with hs | hs
  · rw [show v0 + v1 + v2 + v3 + v4 = 0 from hs.symm]
    norm_num
  · rw [div_div_eq_mul_div, div_le_iff₀ hs]
    linarith

/-- An alert list built with a vol-spike ratio not exceeding 5 contains no
volume-spike alert. -/
lemma mkAlerts_no_volSpike (mx mn : Option ℚ) (vs : ℚ) (h : ¬ 5 < vs) :
    (mkAlerts mx mn vs).all (fun a => !(isVolSpike a)) = true := by
  unfold mkAlerts
  rcases mx with _ | m <;> rcases mn with _ | m' <;> split_ifs <;> simp_all [isVolSpike]

/-- C10: for every window of at least 5 candles with non-negative volumes,
the risk scan's volume-spike flag never fires: the trailing-5 mean in the
denominator includes the latest bar, so the ratio is at most 5 and the
strict `> 5` test is always false. -/
theorem vol_spike_never_fires (w : List Candle)
    (hlen : 5 ≤ w.length) (hv : ∀ c ∈ w, 0 ≤ c.volume) :
    ((risk_radar (some w)).getD []).all (fun a => !(isVolSpike a)) = true := by
  have hmem : ∀ i, i < w.length → 0 ≤ (w.getD i cDflt).volume := by
    intro i hi
    rw [List.getD_eq_getElem w cDflt hi]
    exact hv _ (List.getElem_mem hi)
  have key : ¬ (5 : ℚ) < (w.getD (w.length - 1) cDflt).volume /
      (((w.getD (w.length - 5) cDflt).volume + (w.getD (w.length - 4) cDflt).volume +
        (w.getD (w.length - 3) cDflt).volume + (w.getD (w.length - 2) cDflt).volume +
        (w.getD (w.length - 1) cDflt).volume) / 5) :=
    not_lt.mpr (vol_ratio_le_five _ _ _ _ _ (hmem _ (by omega)) (hmem _ (by omega))
      (hmem _ (by omega)) (hmem _ (by omega)) (hmem _ (by omega)))
  simp only [risk_radar, Nat.not_lt.mpr hlen, ite_false, if_neg]
  split
  · simp
  · exact mkAlerts_no_volSpike _ _ _ key

/-- Witness for C10 at the 5-candle constant fixture. -/
theorem vol_spike_never_fires_witness :
    5 ≤ riskW.length ∧
    (∀ c ∈ riskW, 0 ≤ c.volume) ∧
    ((risk_radar (some riskW)).getD []).all (fun a => !(isVolSpike a)) = true :=
  ⟨by decide, by decide,
   vol_spike_never_fires riskW (by decide) (by decide)⟩

end CryptoSniper
